import Mathlib

/-!
Shallow embedding of the k6 DevWorkspace-operator load-testing scripts:

* `src/common/utils.js` — unit-normalization helpers (`parseCpuToMillicores`,
  `parseMemoryToBytes`), manifest generation (`generateDevWorkspaceToCreate`,
  `downloadAndParseExternalWorkspace`), and pod-restart accounting
  (`getPodRestartCounts`, `checkPodRestarts`);
* `src/unnamed/part_007` (the current load-test script importing
  `../common/utils.js`) — `createNewDevWorkspace`,
  `waitUntilDevWorkspaceIsReady`, `deleteDevWorkspace`,
  `checkDevWorkspaceOperatorMetrics`;
* `src/devworkspace_load_test.js` (the out-of-cluster variant) —
  its `waitUntilDevWorkspaceIsReady` and `deleteDevWorkspace`.

HTTP traffic is modelled by passing the observed responses as explicit
arguments; JavaScript numbers are modelled by `Int`/`Rat`; a JavaScript value
that may be `undefined` is modelled by `Option`.
-/

/-! ## JavaScript primitives -/

/-- Numeric value of a list of decimal digit characters (most significant
first), as accumulated by a left-to-right scan. -/
def digitsVal (l : List Char) : Nat :=
  l.foldl (fun acc c => acc * 10 + (c.toNat - 48)) 0

/-- Parse the longest prefix of decimal digits; `none` when there is no digit
(JavaScript `parseInt`/`parseFloat` yield `NaN` there, which we model as
`none`). -/
def leadingDigits (cs : List Char) : Option Nat :=
  let ds := cs.takeWhile Char.isDigit
  if ds.isEmpty then none else some (digitsVal ds)

/-- JavaScript `parseInt(s)` restricted to the base-10 integer literals that
occur in Kubernetes quantity strings: an optional leading minus sign followed
by decimal digits; trailing non-digit characters (such as unit suffixes) are
ignored, and `none` models `NaN`. -/
def jsParseInt (s : String) : Option Int :=
  match s.data with
  | '-' :: cs => (fun n => -(n : Int)) <$> leadingDigits cs
  | cs => (fun n => (n : Int)) <$> leadingDigits cs

/-- JavaScript `parseFloat(s)` restricted to plain decimal literals: an
optional minus sign, integer digits, and an optional fractional part.
Trailing garbage is ignored; `none` models `NaN`. -/
def jsParseFloat (s : String) : Option ℚ :=
  let (neg, cs) :=
    match s.data with
    | '-' :: cs => (true, cs)
    | cs => (false, cs)
  let intDs := cs.takeWhile Char.isDigit
  let rest := cs.dropWhile Char.isDigit
  let fracDs :=
    match rest with
    | '.' :: cs2 => cs2.takeWhile Char.isDigit
    | _ => []
  if intDs.isEmpty && fracDs.isEmpty then none
  else
    let mag : ℚ := (digitsVal intDs : ℚ) + (digitsVal fracDs : ℚ) / (10 ^ fracDs.length : ℚ)
    some (if neg then -mag else mag)

/-- JavaScript `Math.round`: round half toward positive infinity. -/
def jsRound (q : ℚ) : Int := ⌊q + 1/2⌋

/-- JavaScript `s.endsWith(suffix)`. -/
def strEndsWith (s suffix : String) : Bool :=
  List.isSuffixOf suffix.data s.data

/-! ## Unit normalization (`src/common/utils.js`, lines 62–77) -/

/-- Function `parseMemoryToBytes` from `src/common/utils.js` (lines 62–70): normalize a
Kubernetes memory quantity string to bytes.  The `n`/`u`/`m` branches divide,
so the result is a rational; `none` models the `NaN` produced when the string
has no leading digits. -/
def parseMemoryToBytes (memStr : String) : Option ℚ :=
  if strEndsWith memStr "Ki" then (fun n => (n : ℚ) * 1024) <$> jsParseInt memStr
  else if strEndsWith memStr "Mi" then (fun n => (n : ℚ) * 1024 * 1024) <$> jsParseInt memStr
  else if strEndsWith memStr "Gi" then (fun n => (n : ℚ) * 1024 * 1024 * 1024) <$> jsParseInt memStr
  else if strEndsWith memStr "n" then (fun n => (n : ℚ) / 1000000000) <$> jsParseInt memStr
  else if strEndsWith memStr "u" then (fun n => (n : ℚ) / 1000000) <$> jsParseInt memStr
  else if strEndsWith memStr "m" then (fun n => (n : ℚ) / 1000) <$> jsParseInt memStr
  else (fun n => (n : ℚ)) <$> jsParseInt memStr

/-- Function `parseCpuToMillicores` from `src/common/utils.js` (lines 72–77): normalize
a Kubernetes CPU quantity string to millicores.  `none` models `NaN`. -/
def parseCpuToMillicores (cpuStr : String) : Option Int :=
  if strEndsWith cpuStr "n" then (fun n => jsRound ((n : ℚ) / 1000000)) <$> jsParseInt cpuStr
  else if strEndsWith cpuStr "u" then (fun n => jsRound ((n : ℚ) / 1000)) <$> jsParseInt cpuStr
  else if strEndsWith cpuStr "m" then jsParseInt cpuStr
  else (fun q => jsRound (q * 1000)) <$> jsParseFloat cpuStr

/-! ## Poll responses and phase classification -/

/-- One HTTP GET response observed by the status poll loop.  `status` is the
HTTP status code; `body` is `none` when `JSON.parse(res.body)` throws, and
`some phase?` when it parses, with `phase? = body?.status?.phase` (`none` when
the parsed body has no status phase). -/
structure PollResponse where
  status : Nat
  body : Option (Option String)
deriving DecidableEq

/-- Ready aliases from the poll loops: `phase === 'Ready' || phase === 'Running'`. -/
def isReadyPhase (p : String) : Bool :=
  p == "Ready" || p == "Running"

/-- Failure aliases from `src/unnamed/part_007` line 389:
`phase === 'Failing' || phase === 'Failed' || phase === 'Error'`. -/
def isFailurePhase (p : String) : Bool :=
  p == "Failing" || p == "Failed" || p == "Error"

/-- What one poll tick of `waitUntilDevWorkspaceIsReady` in
`src/unnamed/part_007` (lines 378–402) observes: a ready alias, a failure
alias, or nothing terminal (non-200 status, unparseable body, missing phase,
and any other phase string all fall through to the next tick). -/
inductive TickObs
  | obsReady
  | obsFailed
  | obsPending
deriving DecidableEq

/-- Classify one response the way the `part_007` poll loop body does. -/
def classifyTick (r : PollResponse) : TickObs :=
  if r.status == 200 then
    match r.body with
    | some (some p) =>
      if isReadyPhase p then .obsReady
      else if isFailurePhase p then .obsFailed
      else .obsPending
    | some none => .obsPending
    | none => .obsPending
  else .obsPending

/-- Terminal classification of one poll-loop run in `src/unnamed/part_007`:
`isReady` / `isFailed` / neither-with-attempt-budget-exhausted. -/
inductive DwOutcome
  | Ready
  | Failed
  | TimedOut
deriving DecidableEq

/-! ## Per-tick metrics sampling and its abort path -/

/-- Execution outcome of a per-tick metrics-sampler call
(`checkDevWorkspaceOperatorMetrics` / `checkEtcdMetrics`), as called from the
poll loops (`src/unnamed/part_007` lines 398–399,
`src/devworkspace_load_test.js` line 177).  These callees have no try/catch
around `JSON.parse(res.body)` on a 200 response (`part_007` lines 450 and
500, and `src/common/utils.js` line 93 via `checkPodRestarts`), nor around
the subsequent shape accesses (`data.items.filter`, `pod.containers[0]`), so
such a call either returns early (`skipped`, non-200 metrics response),
completes its sampling (`sampled`), or throws out of
`waitUntilDevWorkspaceIsReady` (`thrown`), aborting the poll loop and
skipping its outcome-recording code entirely (the exception is only caught
by the `default` function's catch, `part_007` lines 271–273). -/
inductive SamplerOutcome
  | skipped
  | sampled
  | thrown
deriving DecidableEq

/-- Classification of one metrics-sampler call from its metrics-endpoint
response: a non-200 status returns early after logging (`part_007` lines
446–448); a 200 status reaches the unguarded `JSON.parse` and shape
accesses, which either succeed (`bodyParses = true`) or throw. -/
def metricsCallOutcome (status : Nat) (bodyParses : Bool) : SamplerOutcome :=
  if status != 200 then .skipped
  else if bodyParses then .sampled else .thrown

/-- How one run of `waitUntilDevWorkspaceIsReady` in `src/unnamed/part_007`
exits: the loop finishes with a terminal classification (reaching the
recording code at lines 404–423), or a per-tick sampler call throws and the
exception propagates out of the function before anything is recorded. -/
inductive LoopExit
  | finished (outcome : DwOutcome)
  | thrown
deriving DecidableEq

/-! ## `waitUntilDevWorkspaceIsReady` — `src/unnamed/part_007`, lines 369–424 -/

/-- The `while (!isReady && !isFailed && attempts < maxAttempts)` loop of
`src/unnamed/part_007`, with `maxAttempts = devWorkspaceReadyTimeout /
pollWaitInterval` (JavaScript real division); the guard
`attempts < timeout / interval` is rendered as
`attempts * interval < timeout`, which is equivalent for `interval > 0`.
`resp i` is the response to the GET of attempt `i`; `sampler i` is the
combined effect of the two metrics-sampler calls of tick `i` (lines
398–399), run only on a pending tick (a ready/failure alias breaks out of
the loop before them) and `thrown` when either call throws.  The result is
the loop exit together with the number of GET requests issued (on a thrown
tick the tick's GET has already happened, so it is counted).  Structural
recursion is on an explicit fuel; fuel exhaustion (first branch) is
unreachable from `waitUntilDevWorkspaceIsReady` when `interval > 0`,
matching the fact that the JavaScript loop can only fail to terminate when
the poll interval is `0`. -/
def waitLoopGo (resp : Nat → PollResponse) (sampler : Nat → SamplerOutcome)
    (interval timeout : Nat) : Nat → Nat → LoopExit × Nat
  | 0, attempts => (.finished .TimedOut, attempts)
  | fuel + 1, attempts =>
    if attempts * interval < timeout then
      match classifyTick (resp attempts) with
      | .obsReady => (.finished .Ready, attempts + 1)
      | .obsFailed => (.finished .Failed, attempts + 1)
      | .obsPending =>
        match sampler attempts with
        | .thrown => (.thrown, attempts + 1)
        | .skipped => waitLoopGo resp sampler interval timeout fuel (attempts + 1)
        | .sampled => waitLoopGo resp sampler interval timeout fuel (attempts + 1)
    else (.finished .TimedOut, attempts)

/-- Function `waitUntilDevWorkspaceIsReady` from `src/unnamed/part_007` (lines
369–424), abstracted over the poll interval (`pollWaitInterval`, a constant
`10` in the script) and the ready timeout
(`__ENV.DEV_WORKSPACE_READY_TIMEOUT_IN_SECONDS`, default `600`). -/
def waitUntilDevWorkspaceIsReady (resp : Nat → PollResponse)
    (sampler : Nat → SamplerOutcome) (interval timeout : Nat) : LoopExit × Nat :=
  waitLoopGo resp sampler interval timeout (timeout + 1) 0

/-- Constant `pollWaitInterval` from `src/unnamed/part_007` line 109. -/
def pollWaitInterval : Nat := 10

/-- The metric updates performed after the poll loop of `src/unnamed/part_007`
(lines 404–423): increments of the `devworkspace_ready` and
`devworkspace_ready_failed` counters, samples added to the
`devworkspace_ready_duration` trend, the delta applied to the
`devworkspace_starting` counter, and whether the timed-out warning
(`console.error` at lines 405–408) was emitted. -/
structure ReadyRecorded where
  ready : Nat
  readyDurationSamples : Nat
  readyFailed : Nat
  startingDelta : Int
  timeoutLogged : Bool
deriving DecidableEq

/-- Lines 404–423 of `src/unnamed/part_007`: `isReady` records a ready
outcome, `isFailed` records an explicit failure, and the remaining case (the
attempt budget ran out) only logs and decrements `devworkspace_starting`. -/
def recordFinalState : DwOutcome → ReadyRecorded
  | .Ready => { ready := 1, readyDurationSamples := 1, readyFailed := 0,
                startingDelta := -1, timeoutLogged := false }
  | .Failed => { ready := 0, readyDurationSamples := 0, readyFailed := 1,
                 startingDelta := -1, timeoutLogged := false }
  | .TimedOut => { ready := 0, readyDurationSamples := 0, readyFailed := 0,
                   startingDelta := -1, timeoutLogged := true }

/-- What a whole `waitUntilDevWorkspaceIsReady` run records: the recording
code at lines 404–423 runs only when the loop finished; a sampler exception
skips it, so a thrown run records nothing (not even the
`devworkspace_starting` decrement). -/
def recordWaitExit : LoopExit → ReadyRecorded
  | .finished o => recordFinalState o
  | .thrown => { ready := 0, readyDurationSamples := 0, readyFailed := 0,
                 startingDelta := 0, timeoutLogged := false }

/-- How many of the three terminal classifications a `part_007` poll-loop run
recorded: a ready outcome counts via `devworkspace_ready`, an explicit
failure via `devworkspace_ready_failed`, and a timeout via its warning log. -/
def classificationsRecorded (d : ReadyRecorded) : Nat :=
  d.ready + d.readyFailed + (if d.timeoutLogged then 1 else 0)

/-! ## `waitUntilDevWorkspaceIsReady` — `src/devworkspace_load_test.js`, lines 153–192 -/

/-- Whether one poll tick of the out-of-cluster script observes readiness
(`src/devworkspace_load_test.js` lines 164–175): HTTP 200, parseable body,
and a ready-alias phase.  This variant tracks no failure aliases. -/
def readyObserved (r : PollResponse) : Bool :=
  r.status == 200 &&
    (match r.body with
     | some (some p) => isReadyPhase p
     | _ => false)

/-- Constant `maxAttempts` from `src/devworkspace_load_test.js` line 158. -/
def loadTestMaxAttempts : Nat := 120

/-- How one run of `waitUntilDevWorkspaceIsReady` in
`src/devworkspace_load_test.js` exits: the loop finishes with its `isReady`
flag and the final value of `res` (reaching the recording code at lines
182–191), or the per-tick `checkDevWorkspaceOperatorMetrics()` call (line
177) throws — its `JSON.parse(res.body)` at line 218 is uncaught — and the
exception propagates out before anything is recorded. -/
inductive OutLoopExit
  | finished (isReady : Bool) (lastRes : Option PollResponse)
  | thrown
deriving DecidableEq

/-- The `while (!isReady && attempts < maxAttempts)` loop of
`src/devworkspace_load_test.js` (lines 161–180), carrying the `res` variable
(initially the empty object `{}`, modelled as `none`) across ticks.
`sampler i` is the effect of tick `i`'s `checkDevWorkspaceOperatorMetrics()`
call, run on every non-ready tick (the ready break at line 170 precedes it)
and aborting the loop when it throws.  Initial fuel `loadTestMaxAttempts`
realizes the guard `attempts < maxAttempts`. -/
def waitLoopOutGo (resp : Nat → PollResponse) (sampler : Nat → SamplerOutcome) :
    Nat → Nat → Option PollResponse → OutLoopExit
  | 0, _, lastRes => .finished false lastRes
  | fuel + 1, attempts, _ =>
    let r := resp attempts
    if readyObserved r then .finished true (some r)
    else
      match sampler attempts with
      | .thrown => .thrown
      | .skipped => waitLoopOutGo resp sampler fuel (attempts + 1) (some r)
      | .sampled => waitLoopOutGo resp sampler fuel (attempts + 1) (some r)

/-- The poll loop of `src/devworkspace_load_test.js` run from its initial
state (`isReady = false`, `attempts = 0`, `res = {}`). -/
def waitUntilReadyOutOfCluster (resp : Nat → PollResponse)
    (sampler : Nat → SamplerOutcome) : OutLoopExit :=
  waitLoopOutGo resp sampler loadTestMaxAttempts 0 none

/-- Metric updates performed after the poll loop of
`src/devworkspace_load_test.js` (lines 182–191). -/
structure ReadyRecordedOut where
  ready : Nat
  readyDurationSamples : Nat
  readyFailed : Nat
deriving DecidableEq

/-- Lines 182–191 of `src/devworkspace_load_test.js`: everything is guarded
by `res.status === 200` on the final value of `res` (false for the initial
`{}`); then `isReady` records a ready outcome, and otherwise — i.e. whenever
the attempt budget ran out with a final 200 response — the script increments
`devworkspace_ready_failed` and logs a not-ready warning. -/
def recordFinalStateOutOfCluster (isReady : Bool) (lastRes : Option PollResponse) :
    ReadyRecordedOut :=
  match lastRes with
  | none => { ready := 0, readyDurationSamples := 0, readyFailed := 0 }
  | some r =>
    if r.status == 200 then
      if isReady then { ready := 1, readyDurationSamples := 1, readyFailed := 0 }
      else { ready := 0, readyDurationSamples := 0, readyFailed := 1 }
    else { ready := 0, readyDurationSamples := 0, readyFailed := 0 }

/-- What a whole out-of-cluster `waitUntilDevWorkspaceIsReady` run records:
the recording code at lines 182–191 runs only when the loop finished; a
sampler exception skips it. -/
def recordOutExit : OutLoopExit → ReadyRecordedOut
  | .finished isReady lastRes => recordFinalStateOutOfCluster isReady lastRes
  | .thrown => { ready := 0, readyDurationSamples := 0, readyFailed := 0 }

/-- How many terminal classifications the out-of-cluster run recorded. -/
def classificationsRecordedOut (d : ReadyRecordedOut) : Nat :=
  d.ready + d.readyFailed

/-! ## `createNewDevWorkspace` — `src/unnamed/part_007`, lines 350–367 -/

/-- Metric/check updates of one `createNewDevWorkspace` call: samples added
to the `devworkspace_create_duration` trend, increments of
`devworkspace_create_count` and `devworkspace_starting`, the result of the
`'DevWorkspace created'` check, and the number of POST requests issued. -/
structure CreateRecorded where
  createDurationSamples : Nat
  createCount : Nat
  startingDelta : Int
  checkPassed : Bool
  posts : Nat
deriving DecidableEq

/-- Function `createNewDevWorkspace` from `src/unnamed/part_007` (lines 350–367),
as a function of the HTTP status of its single POST.  Returns the boolean
result (`true` = proceed, `false` = abort this iteration) and the recorded
metric updates. -/
def createNewDevWorkspace (createStatus : Nat) : Bool × CreateRecorded :=
  let passed := createStatus == 201 || createStatus == 409
  if createStatus != 201 && createStatus != 409 then
    (false, { createDurationSamples := 0, createCount := 0, startingDelta := 0,
              checkPassed := passed, posts := 1 })
  else
    (true, { createDurationSamples := 1, createCount := 1, startingDelta := 1,
             checkPassed := passed, posts := 1 })

/-- The `default` function of `src/unnamed/part_007` (lines 264–270) runs the
poll loop iff `createNewDevWorkspace` returned `true`. -/
def iterationRunsPollLoop (createStatus : Nat) : Bool :=
  (createNewDevWorkspace createStatus).fst

/-! ## `deleteDevWorkspace` — `src/unnamed/part_007`, lines 426–435 -/

/-- Metric/check updates of one `deleteDevWorkspace` call (`part_007`): the
`devworkspace_delete_duration` sample is recorded unconditionally and the
`'DevWorkspace deleted or not found'` check passes iff the DELETE returned
200 or 404.  The function never throws, so the iteration continues either
way. -/
structure DeleteRecorded where
  deleteDurationSamples : Nat
  checkPassed : Bool
deriving DecidableEq

/-- Function `deleteDevWorkspace` from `src/unnamed/part_007` (lines 426–435), as a
function of the HTTP status of its DELETE request. -/
def deleteDevWorkspace (deleteStatus : Nat) : DeleteRecorded :=
  { deleteDurationSamples := 1,
    checkPassed := deleteStatus == 200 || deleteStatus == 404 }

/-! ## Delete URL construction — `src/devworkspace_load_test.js`, lines 91–95 and 194–203 -/

/-- JavaScript template-literal interpolation of a possibly-`undefined`
string value: `` `${undefined}` `` produces the text `"undefined"`. -/
def jsTemplate (v : Option String) : String :=
  match v with
  | some s => s
  | none => "undefined"

/-- The `dwUrl` template literal of `deleteDevWorkspace` in
`src/devworkspace_load_test.js` (line 195), with the `namespace` parameter
possibly `undefined`. -/
def deleteDevWorkspaceUrl (apiServer : String) (crName : String)
    (ns : Option String) : String :=
  apiServer ++ "/apis/workspace.devfile.io/v1alpha2/namespaces/" ++
    jsTemplate ns ++ "/devworkspaces/" ++ crName

/-- The URL actually DELETEd by the `default` function of
`src/devworkspace_load_test.js`: line 94 calls `deleteDevWorkspace(crName)`
with no second argument, so `namespace` is `undefined`. -/
def defaultIterationDeleteUrl (apiServer : String) (crName : String) : String :=
  deleteDevWorkspaceUrl apiServer crName none

/-! ## Operator metrics sampling — `src/unnamed/part_007`, lines 453–477 -/

/-- Constant `maxCpuMillicores` from `src/unnamed/part_007` line 206. -/
def maxCpuMillicores : Int := 250

/-- Constant `maxMemoryBytes = 200 * 1024 * 1024` from `src/unnamed/part_007`
line 207. -/
def maxMemoryBytes : ℚ := 200 * 1024 * 1024

/-- Updates recorded for one operator-pod sample inside
`checkDevWorkspaceOperatorMetrics` (lines 453–477 of `src/unnamed/part_007`):
one sample each into the CPU and memory trends, the violation-counter
increments, and the two per-pod check results. -/
structure OperatorSampleRecorded where
  cpuTrendSamples : Nat
  memTrendSamples : Nat
  cpuViolations : Nat
  memViolations : Nat
  cpuCheckPassed : Bool
  memCheckPassed : Bool
deriving DecidableEq

/-- The body of the `for (const pod of operatorPods)` loop of
`checkDevWorkspaceOperatorMetrics`, applied to one pod's already-normalized
CPU (millicores) and memory (bytes) usage. -/
def processOperatorPodSample (cpu : Int) (memory : ℚ) : OperatorSampleRecorded :=
  let cpuOk := cpu ≤ maxCpuMillicores
  let memOk := memory ≤ maxMemoryBytes
  { cpuTrendSamples := 1, memTrendSamples := 1,
    cpuViolations := if cpuOk then 0 else 1,
    memViolations := if memOk then 0 else 1,
    cpuCheckPassed := cpuOk, memCheckPassed := memOk }

/-! ## Pod restart accounting — `src/common/utils.js`, lines 87–119 -/

/-- Model of a k6 `Gauge` metric (`k6/metrics`): `add(v)` stores the
submitted value as the gauge's current value (k6 gauges keep the last value,
not a running sum).  `src/unnamed/part_007` line 203 declares
`operator_pod_restarts_total` as a `Gauge`. -/
structure Gauge where
  value : Int
deriving DecidableEq

/-- k6 `Gauge.add`: the stored value becomes the submitted value. -/
def Gauge.add (g : Gauge) (v : Int) : Gauge :=
  let _ := g
  { value := v }

/-- One pod entry of the pod-list response used by `getPodRestartCounts`:
`restartCount` is `status.containerStatuses?.[0]?.restartCount` (`none` when
absent). -/
structure PodStatusItem where
  name : String
  restartCount : Option Nat
deriving DecidableEq

/-- The pod-list response observed by `getPodRestartCounts`. -/
structure PodListResponse where
  status : Nat
  items : List PodStatusItem
deriving DecidableEq

/-- Insertion into a JavaScript object literal keyed by pod name: a repeated
key overwrites in place, a fresh key appends (preserving enumeration order,
as `Object.entries` does). -/
def objectInsert (m : List (String × Int)) (k : String) (v : Int) :
    List (String × Int) :=
  if m.any (fun kv => kv.fst == k) then
    m.map (fun kv => if kv.fst == k then (k, v) else kv)
  else m ++ [(k, v)]

/-- Function `getPodRestartCounts` from `src/common/utils.js` (lines 87–100): on a 200
response, a map from pod name to
`status.containerStatuses?.[0]?.restartCount || 0`; otherwise empty. -/
def getPodRestartCounts (resp : PodListResponse) : List (String × Int) :=
  if resp.status == 200 then
    resp.items.foldl
      (fun m pod => objectInsert m pod.name ((pod.restartCount.getD 0 : Nat) : Int)) []
  else []

/-- Function `checkPodRestarts` from `src/common/utils.js` (lines 111–119), with the
(non-null) restart metric passed by `src/unnamed/part_007` line 480: every
entry's current restart count is `add`ed to the gauge. -/
def checkPodRestarts (resp : PodListResponse) (g : Gauge) : Gauge :=
  (getPodRestartCounts resp).foldl (fun g kv => g.add kv.snd) g

/-- A sequence of successive `checkPodRestarts` samplings (one per poll tick
in which the metrics endpoint responds). -/
def runRestartSamples (resps : List PodListResponse) (g : Gauge) : Gauge :=
  resps.foldl (fun g r => checkPodRestarts r g) g

/-! ## Manifest generation — `src/common/utils.js`, lines 121–149 and 187–213 -/

/-- The base manifest a generated DevWorkspace starts from: the built-in
template of `createOpinionatedDevWorkspace`, or the body fetched from the
external URL. -/
inductive ManifestBase
  | opinionated
  | external (body : String)
deriving DecidableEq

/-- A generated DevWorkspace manifest, after `generateDevWorkspaceToCreate`
overwrote its identity fields (`metadata.name`, `metadata.namespace`,
`metadata.labels`). -/
structure DevWorkspaceManifest where
  name : String
  namespaceName : String
  labels : List (String × String)
  base : ManifestBase
deriving DecidableEq

/-- What the GET of the external template URL returns: the HTTP status and
the body (`none` when it fails to parse as JSON). -/
structure FetchEnv where
  status : Nat
  body : Option String
deriving DecidableEq

/-- The environment `generateDevWorkspaceToCreate` runs in:
`externalDevWorkspaceLink = __ENV.DEVWORKSPACE_LINK || ''` and the response
behavior of that URL. -/
structure GenerationEnv where
  externalDevWorkspaceLink : String
  fetch : FetchEnv
deriving DecidableEq

/-- Function `downloadAndParseExternalWorkspace` from `src/common/utils.js` (lines
137–149): an unconditional GET of the link (counted by the second
component), a thrown error on a non-200 status or an unparseable body, and
the parsed manifest otherwise.  The JavaScript function returns `undefined`
without fetching when the link is empty; that branch is unreachable from
`generateDevWorkspaceToCreate`, which only calls this under
`externalDevWorkspaceLink.length > 0`, and is modelled as an error. -/
def downloadAndParseExternalWorkspace (link : String) (env : FetchEnv) :
    Except String ManifestBase × Nat :=
  if link.length > 0 then
    if env.status != 200 then
      (.error "[DW CREATE] Failed to fetch JSON content", 1)
    else
      match env.body with
      | some b => (.ok (.external b), 1)
      | none => (.error "[DW CREATE] Failed to parse JSON", 1)
  else (.error "undefined manifest", 0)

/-- The fixed label pair attached by `generateDevWorkspaceToCreate`:
`labels = { [labelKey]: labelType }` with `labelKey = "load-test"` and
`labelType = "test-type"`. -/
def loadTestLabels : List (String × String) := [("load-test", "test-type")]

/-- Function `generateDevWorkspaceToCreate` from `src/common/utils.js` (lines
121–135): on every call, either download-and-parse the external manifest (if
a link is configured) or build the opinionated one, then overwrite name,
namespace and labels.  The second component counts HTTP GETs of the external
URL performed by this call. -/
def generateDevWorkspaceToCreate (env : GenerationEnv) (vuId iteration : Nat)
    (ns : String) : Except String DevWorkspaceManifest × Nat :=
  let nm := "dw-test-" ++ toString vuId ++ "-" ++ toString iteration
  if env.externalDevWorkspaceLink.length > 0 then
    match downloadAndParseExternalWorkspace env.externalDevWorkspaceLink env.fetch with
    | (.ok base, n) =>
      (.ok { name := nm, namespaceName := ns, labels := loadTestLabels, base := base }, n)
    | (.error e, n) => (.error e, n)
  else
    (.ok { name := nm, namespaceName := ns, labels := loadTestLabels,
           base := .opinionated }, 0)

/-- Total number of external-template fetches performed by a run whose
iterations are given by their `(vuId, iteration, namespace)` triples; each
iteration's `createNewDevWorkspace` calls `generateDevWorkspaceToCreate`
exactly once (`src/unnamed/part_007` line 351). -/
def externalFetchesInRun (env : GenerationEnv)
    (iters : List (Nat × Nat × String)) : Nat :=
  (iters.map (fun it => (generateDevWorkspaceToCreate env it.1 it.2.1 it.2.2).snd)).sum

/-! ## Theorems -/

/-- C8: the unit-normalization functions satisfy: `parseCpuToMillicores` maps
each of "250m", "250000u", "250000000n", and "0.25" to 250 milli-units, and
`parseMemoryToBytes` maps "200Mi" and "209715200" to the same byte value
(209715200). -/
theorem parse_unit_normalization :
    parseCpuToMillicores "250m" = some 250 ∧
    parseCpuToMillicores "250000u" = some 250 ∧
    parseCpuToMillicores "250000000n" = some 250 ∧
    parseCpuToMillicores "0.25" = some 250 ∧
    parseMemoryToBytes "200Mi" = some 209715200 ∧
    parseMemoryToBytes "209715200" = some 209715200 := by
  refine ⟨?_, ?_, ?_, ?_, ?_, ?_⟩
  · have h1 : strEndsWith "250m" "n" = false := by decide
    have h2 : strEndsWith "250m" "u" = false := by decide
    have h3 : strEndsWith "250m" "m" = true := by decide
    have h4 : jsParseInt "250m" = some 250 := by decide
    simp [parseCpuToMillicores, h1, h2, h3, h4]
  · have h1 : strEndsWith "250000u" "n" = false := by decide
    have h2 : strEndsWith "250000u" "u" = true := by decide
    have h4 : jsParseInt "250000u" = some 250000 := by decide
    simp only [parseCpuToMillicores, h1, h2, h4, Bool.false_eq_true, if_false, if_true,
      Option.map_some]
    norm_num [jsRound]
  · have h1 : strEndsWith "250000000n" "n" = true := by decide
    have h4 : jsParseInt "250000000n" = some 250000000 := by decide
    simp only [parseCpuToMillicores, h1, h4, if_true, Option.map_some]
    norm_num [jsRound]
  · have h1 : strEndsWith "0.25" "n" = false := by decide
    have h2 : strEndsWith "0.25" "u" = false := by decide
    have h3 : strEndsWith "0.25" "m" = false := by decide
    have h4 : jsParseFloat "0.25" =
        some ((digitsVal ['0'] : ℚ) + (digitsVal ['2', '5'] : ℚ) / 10 ^ 2) := rfl
    have h5 : digitsVal ['0'] = 0 := by decide
    have h6 : digitsVal ['2', '5'] = 25 := by decide
    rw [h5, h6] at h4
    simp only [parseCpuToMillicores, h1, h2, h3, h4, Bool.false_eq_true, if_false,
      Option.map_some]
    norm_num [jsRound]
  · have h0 : strEndsWith "200Mi" "Ki" = false := by decide
    have h1 : strEndsWith "200Mi" "Mi" = true := by decide
    have h2 : jsParseInt "200Mi" = some 200 := by decide
    simp only [parseMemoryToBytes, h0, h1, h2, Bool.false_eq_true, if_false, if_true,
      Option.map_some]
    norm_num
  · have h0 : strEndsWith "209715200" "Ki" = false := by decide
    have h1 : strEndsWith "209715200" "Mi" = false := by decide
    have h2 : strEndsWith "209715200" "Gi" = false := by decide
    have h3 : strEndsWith "209715200" "n" = false := by decide
    have h4 : strEndsWith "209715200" "u" = false := by decide
    have h5 : strEndsWith "209715200" "m" = false := by decide
    have h6 : jsParseInt "209715200" = some 209715200 := by decide
    simp only [parseMemoryToBytes, h0, h1, h2, h3, h4, h5, h6, Bool.false_eq_true, if_false,
      Option.map_some]
    norm_num

/-- C7: for every CPU/memory sample of an operator pod, the CPU-violation
counter is incremented exactly once when the normalized CPU strictly exceeds
the 250-millicore ceiling (e.g. a sample of 251) and never when the sample is
at or below the ceiling; the memory-violation counter behaves identically
against the 200 MiB ceiling. -/
theorem operator_violation_thresholds (cpu : Int) (memory : ℚ) :
    ((processOperatorPodSample cpu memory).cpuViolations
        = if maxCpuMillicores < cpu then 1 else 0) ∧
    ((processOperatorPodSample cpu memory).memViolations
        = if maxMemoryBytes < memory then 1 else 0) ∧
    (processOperatorPodSample 251 memory).cpuViolations = 1 ∧
    (processOperatorPodSample 250 memory).cpuViolations = 0 := by
  have hc : ∀ (c : Int) (m : ℚ), (processOperatorPodSample c m).cpuViolations
      = if maxCpuMillicores < c then 1 else 0 := by
    intro c m
    rcases le_or_lt c maxCpuMillicores with h | h
    · simp [processOperatorPodSample, h, not_lt.mpr h]
    · simp [processOperatorPodSample, h, not_le.mpr h]
  have hm : ∀ (c : Int) (m : ℚ), (processOperatorPodSample c m).memViolations
      = if maxMemoryBytes < m then 1 else 0 := by
    intro c m
    rcases le_or_lt m maxMemoryBytes with h | h
    · simp [processOperatorPodSample, h, not_lt.mpr h]
    · simp [processOperatorPodSample, h, not_le.mpr h]
  refine ⟨hc cpu memory, hm cpu memory, ?_, ?_⟩
  · rw [hc]
    norm_num [maxCpuMillicores]
  · rw [hc]
    norm_num [maxCpuMillicores]

/-- C9: the create step treats exactly HTTP 201 and 409 as success and
proceeds to polling (so a 201 and a subsequent 409 for the same name both
proceed), while any other status aborts the iteration before polling, with a
single POST and no retry, leaving the create-latency and created counters
unchanged. -/
theorem create_status_gate (s : Nat) :
    (createNewDevWorkspace s =
      if s = 201 ∨ s = 409 then
        (true, { createDurationSamples := 1, createCount := 1, startingDelta := 1,
                 checkPassed := true, posts := 1 })
      else
        (false, { createDurationSamples := 0, createCount := 0, startingDelta := 0,
                  checkPassed := false, posts := 1 })) ∧
    (iterationRunsPollLoop s = true ↔ (s = 201 ∨ s = 409)) ∧
    (createNewDevWorkspace 201).fst = true ∧
    (createNewDevWorkspace 409).fst = true ∧
    (createNewDevWorkspace s).snd.posts = 1 := by
  have h : createNewDevWorkspace s =
      if s = 201 ∨ s = 409 then
        (true, { createDurationSamples := 1, createCount := 1, startingDelta := 1,
                 checkPassed := true, posts := 1 })
      else
        (false, { createDurationSamples := 0, createCount := 0, startingDelta := 0,
                  checkPassed := false, posts := 1 }) := by
    by_cases h1 : s = 201
    · subst h1; decide
    · by_cases h2 : s = 409
      · subst h2; decide
      · simp [createNewDevWorkspace, h1, h2]
  refine ⟨h, ?_, by decide, by decide, ?_⟩
  · rw [iterationRunsPollLoop, h]
    by_cases hs : s = 201 ∨ s = 409
    · simp [hs]
    · simp [hs]
  · rw [h]
    by_cases hs : s = 201 ∨ s = 409
    · simp [hs]
    · simp [hs]

/-- C10: the per-resource delete step treats exactly HTTP 200 and 404 as a
passing check (idempotent delete of a nonexistent resource passes), records
its duration sample unconditionally, and any other status only fails the
check — the function returns normally, so the iteration is not aborted. -/
theorem delete_status_idempotent (s : Nat) :
    ((deleteDevWorkspace s).checkPassed = true ↔ (s = 200 ∨ s = 404)) ∧
    (deleteDevWorkspace s).deleteDurationSamples = 1 ∧
    (deleteDevWorkspace 404).checkPassed = true := by
  refine ⟨?_, rfl, by decide⟩
  simp [deleteDevWorkspace]

/-- C5: pod restart counts are recorded as a last-value gauge, not a
cumulative counter: sampling restart counts 0, 0, 3 across three successive
`checkPodRestarts` calls leaves the gauge at 3 (whatever its prior value),
and resubmitting the same value never changes the stored value again. -/
theorem restart_gauge_last_value (g : Gauge) (v : Int) :
    (runRestartSamples
        [⟨200, [⟨"pod-a", some 0⟩]⟩, ⟨200, [⟨"pod-a", some 0⟩]⟩,
         ⟨200, [⟨"pod-a", some 3⟩]⟩] g).value = 3 ∧
    (g.add v).value = v ∧
    (g.add v).add v = g.add v := by
  refine ⟨rfl, rfl, rfl⟩

/-- C6: in the out-of-cluster load-test script, the post-ready delete call
passes only the resource name, so the DELETE URL contains the literal
namespace segment "undefined" and differs from the delete URL of every
actual namespace (in particular the one the DevWorkspace was created in). -/
theorem delete_misses_namespace (apiServer crName ns : String)
    (h : ns ≠ "undefined") :
    defaultIterationDeleteUrl apiServer crName =
      apiServer ++ "/apis/workspace.devfile.io/v1alpha2/namespaces/" ++ "undefined" ++
        "/devworkspaces/" ++ crName ∧
    defaultIterationDeleteUrl apiServer crName ≠
      deleteDevWorkspaceUrl apiServer crName (some ns) := by
  refine ⟨rfl, ?_⟩
  intro heq
  apply h
  simp only [defaultIterationDeleteUrl, deleteDevWorkspaceUrl, jsTemplate] at heq
  have hd := congrArg String.data heq
  simp only [String.data_append, List.append_assoc] at hd
  have h1 := List.append_cancel_left hd
  have h2 := List.append_cancel_left h1
  rw [← List.append_assoc, ← List.append_assoc] at h2
  have h3 := List.append_cancel_right (List.append_cancel_right h2)
  exact (String.ext h3).symm

/-- C6 witness: a concrete instantiation of `delete_misses_namespace`. -/
theorem delete_misses_namespace_witness :
    defaultIterationDeleteUrl "https://api.crc.testing:6443" "dw-test-1-0" =
      "https://api.crc.testing:6443" ++
        "/apis/workspace.devfile.io/v1alpha2/namespaces/" ++ "undefined" ++
        "/devworkspaces/" ++ "dw-test-1-0" ∧
    defaultIterationDeleteUrl "https://api.crc.testing:6443" "dw-test-1-0" ≠
      deleteDevWorkspaceUrl "https://api.crc.testing:6443" "dw-test-1-0" (some "default") :=
  delete_misses_namespace "https://api.crc.testing:6443" "dw-test-1-0" "default" (by decide)

/-- Helper: with a positive interval, every tick pending and no sampler call
throwing, the `part_007` poll loop with timeout `q * interval` times out
after exactly `q` GETs, for any fuel larger than the remaining budget. -/
theorem waitLoopGo_all_pending (resp : Nat → PollResponse)
    (sampler : Nat → SamplerOutcome) (interval q : Nat) (hpos : 0 < interval)
    (hpend : ∀ i, classifyTick (resp i) = TickObs.obsPending)
    (hns : ∀ i, sampler i ≠ SamplerOutcome.thrown) :
    ∀ fuel attempts, attempts ≤ q → q < attempts + fuel →
      waitLoopGo resp sampler interval (q * interval) fuel attempts =
        (LoopExit.finished DwOutcome.TimedOut, q) := by
  intro fuel
  induction fuel with
  | zero =>
    intro attempts h1 h2
    omega
  | succ n ih =>
    intro attempts h1 h2
    rcases Nat.lt_or_ge attempts q with hlt | hge
    · have hg : attempts * interval < q * interval := by
        exact (mul_lt_mul_right hpos).mpr hlt
      simp only [waitLoopGo, if_pos hg, hpend attempts]
      cases hs : sampler attempts with
      | thrown => exact absurd hs (hns attempts)
      | skipped => exact ih (attempts + 1) hlt (by omega)
      | sampled => exact ih (attempts + 1) hlt (by omega)
    · have heqa : attempts = q := Nat.le_antisymm h1 hge
      subst heqa
      simp only [waitLoopGo, if_neg (lt_irrefl (attempts * interval))]

/-- C3 counterexample: a per-tick metrics-sampler call that throws — a
metrics endpoint answering 200 with a body whose `JSON.parse` fails — aborts
the `part_007` poll loop (interval 10, default timeout 600) after a single
GET attempt instead of `600 / 10 = 60`, with no TimedOut classification
recorded, even though every poll response is pending. -/
theorem sampler_throw_cuts_poll_budget :
    waitUntilDevWorkspaceIsReady (fun _ => ⟨200, some (some "Starting")⟩)
        (fun _ => metricsCallOutcome 200 false) 10 600 = (LoopExit.thrown, 1) ∧
    (1 : Nat) ≠ 600 / 10 ∧
    classificationsRecorded (recordWaitExit
      (waitUntilDevWorkspaceIsReady (fun _ => ⟨200, some (some "Starting")⟩)
        (fun _ => metricsCallOutcome 200 false) 10 600).fst) = 0 := by
  decide

/-- C3 (amended): if the fetched status phase never matches a ready alias or
a failure alias and no per-tick metrics-sampler call throws, the `part_007`
poll loop performs exactly `timeoutSeconds / pollIntervalSeconds` GET
attempts (whenever the interval divides the timeout, e.g. 3 attempts for a
15-second timeout with a 5-second poll interval) and then classifies the
iteration as TimedOut; a sampler throw instead aborts the loop early with
fewer GETs and no classification. -/
theorem poll_loop_exhausts_budget (resp : Nat → PollResponse)
    (sampler : Nat → SamplerOutcome) (interval timeout : Nat)
    (hpos : 0 < interval) (hdvd : interval ∣ timeout)
    (hpend : ∀ i, classifyTick (resp i) = TickObs.obsPending)
    (hns : ∀ i, sampler i ≠ SamplerOutcome.thrown) :
    waitUntilDevWorkspaceIsReady resp sampler interval timeout =
      (LoopExit.finished DwOutcome.TimedOut, timeout / interval) := by
  obtain ⟨q, rfl⟩ := hdvd
  have hq : interval * q / interval = q := Nat.mul_div_cancel_left q hpos
  rw [waitUntilDevWorkspaceIsReady, hq, Nat.mul_comm interval q]
  have hle : q ≤ q * interval := Nat.le_mul_of_pos_right q hpos
  exact waitLoopGo_all_pending resp sampler interval q hpos hpend hns
    (q * interval + 1) 0 (Nat.zero_le q) (by omega)

/-- C3 witness: with a 15-second timeout, a 5-second poll interval, a
backend that always answers 200 with phase "Starting" and metrics endpoints
that always answer non-200 (the sampler's harmless early-return path), the
loop performs exactly 3 GET attempts and times out. -/
theorem poll_loop_exhausts_budget_witness :
    waitUntilDevWorkspaceIsReady (fun _ => ⟨200, some (some "Starting")⟩)
        (fun _ => metricsCallOutcome 503 true) 5 15 =
      (LoopExit.finished DwOutcome.TimedOut, 3) := by
  have h := poll_loop_exhausts_budget (fun _ => ⟨200, some (some "Starting")⟩)
    (fun _ => metricsCallOutcome 503 true) 5 15
    (by decide) (by decide) (fun _ => rfl)
    (fun _ => (by decide : metricsCallOutcome 503 true ≠ SamplerOutcome.thrown))
  simpa using h

/-- C1 counterexample: in `src/devworkspace_load_test.js`, a poll loop that
exhausts all 120 attempts without ever observing a ready-alias phase (every
response is HTTP 200 with phase "Starting") does increment
`devworkspace_ready_failed`, so the TimedOut exemption does not hold in every
script variant. -/
theorem timeout_increments_ready_failed_out_of_cluster :
    waitUntilReadyOutOfCluster (fun _ => ⟨200, some (some "Starting")⟩)
        (fun _ => metricsCallOutcome 503 true)
      = OutLoopExit.finished false (some ⟨200, some (some "Starting")⟩) ∧
    (recordOutExit (waitUntilReadyOutOfCluster (fun _ => ⟨200, some (some "Starting")⟩)
        (fun _ => metricsCallOutcome 503 true))).readyFailed = 1 := by
  decide

/-- C1 (amended): in the `part_007` script, a poll loop that exhausts its
attempt budget without observing a ready or failure alias (TimedOut) never
increments `devworkspace_ready_failed` and only logs a warning; in the
out-of-cluster script `devworkspace_load_test.js`, a timed-out poll loop
increments `devworkspace_ready_failed` whenever its final poll response had
HTTP status 200 (and records nothing when it did not). -/
theorem timed_out_excluded_from_ready_failed (resp : Nat → PollResponse)
    (sampler : Nat → SamplerOutcome) (interval timeout : Nat)
    (h : (waitUntilDevWorkspaceIsReady resp sampler interval timeout).fst
        = LoopExit.finished DwOutcome.TimedOut) :
    (recordWaitExit
        (waitUntilDevWorkspaceIsReady resp sampler interval timeout).fst).readyFailed = 0 ∧
    (recordWaitExit
        (waitUntilDevWorkspaceIsReady resp sampler interval timeout).fst).timeoutLogged
        = true ∧
    (∀ lastRes : PollResponse, lastRes.status = 200 →
      (recordFinalStateOutOfCluster false (some lastRes)).readyFailed = 1) ∧
    (∀ lastRes : PollResponse, lastRes.status ≠ 200 →
      (recordFinalStateOutOfCluster false (some lastRes)).readyFailed = 0) := by
  rw [h]
  refine ⟨rfl, rfl, ?_, ?_⟩
  · intro r hr
    simp [recordFinalStateOutOfCluster, hr]
  · intro r hr
    simp [recordFinalStateOutOfCluster, hr]

/-- C1 witness: concrete instantiation of `timed_out_excluded_from_ready_failed`
at a backend that always answers 200 with phase "Starting" (interval 5,
timeout 15, metrics endpoints answering non-200). -/
theorem timed_out_excluded_from_ready_failed_witness :
    (recordWaitExit
        (waitUntilDevWorkspaceIsReady (fun _ => ⟨200, some (some "Starting")⟩)
          (fun _ => metricsCallOutcome 503 true) 5 15).fst).readyFailed = 0 ∧
    (recordFinalStateOutOfCluster false (some ⟨200, some (some "Starting")⟩)).readyFailed = 1 := by
  have h := timed_out_excluded_from_ready_failed (fun _ => ⟨200, some (some "Starting")⟩)
    (fun _ => metricsCallOutcome 503 true) 5 15 (by decide)
  exact ⟨h.1, h.2.2.1 ⟨200, some (some "Starting")⟩ rfl⟩

/-- C2 counterexample: in `src/unnamed/part_007` itself, an iteration whose
per-tick metrics-sampler call throws (a metrics endpoint answering 200 with
an unparseable body) aborts the poll loop and records zero terminal
classifications — neither Ready, nor Failed, nor the TimedOut warning —
contradicting "exactly one ... is recorded, never zero". -/
theorem sampler_throw_records_no_classification :
    (waitUntilDevWorkspaceIsReady (fun _ => ⟨200, some (some "Starting")⟩)
        (fun _ => metricsCallOutcome 200 false) 10 600).fst = LoopExit.thrown ∧
    classificationsRecorded (recordWaitExit
      (waitUntilDevWorkspaceIsReady (fun _ => ⟨200, some (some "Starting")⟩)
        (fun _ => metricsCallOutcome 200 false) 10 600).fst) = 0 := by
  decide

/-- Helper: when no per-tick sampler call throws, the `part_007` poll loop
always finishes with a terminal classification. -/
theorem waitLoopGo_no_throw (resp : Nat → PollResponse)
    (sampler : Nat → SamplerOutcome) (interval timeout : Nat)
    (hns : ∀ i, sampler i ≠ SamplerOutcome.thrown) :
    ∀ fuel attempts, ∃ o,
      (waitLoopGo resp sampler interval timeout fuel attempts).fst =
        LoopExit.finished o := by
  intro fuel
  induction fuel with
  | zero =>
    intro attempts
    exact ⟨DwOutcome.TimedOut, rfl⟩
  | succ n ih =>
    intro attempts
    simp only [waitLoopGo]
    by_cases hg : attempts * interval < timeout
    · rw [if_pos hg]
      cases hc : classifyTick (resp attempts) with
      | obsReady => exact ⟨DwOutcome.Ready, rfl⟩
      | obsFailed => exact ⟨DwOutcome.Failed, rfl⟩
      | obsPending =>
        cases hs : sampler attempts with
        | thrown => exact absurd hs (hns attempts)
        | skipped => exact ih (attempts + 1)
        | sampled => exact ih (attempts + 1)
    · rw [if_neg hg]
      exact ⟨DwOutcome.TimedOut, rfl⟩

/-- C2 (amended): both scripts record at most one terminal classification per
poll-loop run.  In `src/unnamed/part_007` exactly one of {Ready, Failed,
TimedOut} is recorded — regardless of the poll responses' HTTP statuses —
provided no per-tick metrics-sampler call throws; a thrown sampler call
aborts the run with zero classifications.  In
`src/devworkspace_load_test.js` a run that finishes its loop records exactly
one classification when its final poll response has HTTP status 200 and zero
otherwise (and a thrown sampler call likewise records nothing). -/
theorem exactly_one_classification (resp : Nat → PollResponse)
    (sampler : Nat → SamplerOutcome) (interval timeout : Nat)
    (hns : ∀ i, sampler i ≠ SamplerOutcome.thrown) :
    classificationsRecorded (recordWaitExit
        (waitUntilDevWorkspaceIsReady resp sampler interval timeout).fst) = 1 ∧
    (∀ e : LoopExit, classificationsRecorded (recordWaitExit e) ≤ 1) ∧
    (∀ (isReady : Bool) (lastRes : PollResponse),
      classificationsRecordedOut (recordFinalStateOutOfCluster isReady (some lastRes)) =
        if lastRes.status = 200 then 1 else 0) ∧
    (∀ e : OutLoopExit, classificationsRecordedOut (recordOutExit e) ≤ 1) := by
  refine ⟨?_, ?_, ?_, ?_⟩
  · obtain ⟨o, ho⟩ := waitLoopGo_no_throw resp sampler interval timeout hns (timeout + 1) 0
    rw [waitUntilDevWorkspaceIsReady, ho]
    cases o <;> rfl
  · intro e
    cases e with
    | finished o => cases o <;> simp [recordWaitExit, recordFinalState, classificationsRecorded]
    | thrown => simp [recordWaitExit, classificationsRecorded]
  · intro isReady r
    by_cases hr : r.status = 200
    · cases isReady <;> simp [recordFinalStateOutOfCluster, classificationsRecordedOut, hr]
    · cases isReady <;> simp [recordFinalStateOutOfCluster, classificationsRecordedOut, hr]
  · intro e
    cases e with
    | finished isReady lastRes =>
      cases lastRes with
      | none =>
        cases isReady <;>
          simp [recordOutExit, recordFinalStateOutOfCluster, classificationsRecordedOut]
      | some r =>
        by_cases hr : r.status = 200 <;> cases isReady <;>
          simp [recordOutExit, recordFinalStateOutOfCluster, classificationsRecordedOut, hr]
    | thrown => simp [recordOutExit, classificationsRecordedOut]

/-- C2 witness: concrete instantiation of `exactly_one_classification` —
pending 200/"Starting" responses, non-throwing sampler, interval 5, timeout
15 — recording exactly one classification. -/
theorem exactly_one_classification_witness :
    classificationsRecorded (recordWaitExit
      (waitUntilDevWorkspaceIsReady (fun _ => ⟨200, some (some "Starting")⟩)
        (fun _ => metricsCallOutcome 503 true) 5 15).fst) = 1 :=
  (exactly_one_classification (fun _ => ⟨200, some (some "Starting")⟩)
    (fun _ => metricsCallOutcome 503 true) 5 15
    (fun _ => (by decide : metricsCallOutcome 503 true ≠ SamplerOutcome.thrown))).1

/-- C4 counterexample: with an external template URL configured, a run of two
iterations performs two external fetches, not one — the manifest is not
cached for the run. -/
theorem external_template_fetched_per_iteration :
    externalFetchesInRun
        ⟨"https://example.com/dw.json", ⟨200, some "template"⟩⟩
        [(1, 0, "loadtest-devworkspaces"), (1, 1, "loadtest-devworkspaces")] = 2 ∧
    externalFetchesInRun
        ⟨"https://example.com/dw.json", ⟨200, some "template"⟩⟩
        [(1, 0, "loadtest-devworkspaces"), (1, 1, "loadtest-devworkspaces")] ≠ 1 := by
  decide

/-- C4 (amended): when an external template URL is configured, the manifest
is fetched from that URL once per iteration — every call of
`generateDevWorkspaceToCreate` performs its own fetch, with no run-level
cache — and each iteration's generated manifest derives from its own fetch of
that URL. -/
theorem external_template_fetch_per_call (env : GenerationEnv)
    (h : 0 < env.externalDevWorkspaceLink.length)
    (iters : List (Nat × Nat × String)) (vuId iteration : Nat) (ns b : String)
    (hstatus : env.fetch.status = 200) (hbody : env.fetch.body = some b) :
    externalFetchesInRun env iters = iters.length ∧
    ∃ m, (generateDevWorkspaceToCreate env vuId iteration ns).fst = Except.ok m ∧
      m.base = ManifestBase.external b := by
  have hdl : downloadAndParseExternalWorkspace env.externalDevWorkspaceLink env.fetch
      = (Except.ok (ManifestBase.external b), 1) := by
    simp [downloadAndParseExternalWorkspace, h, hstatus, hbody]
  have hsnd : ∀ vu it nsx, (generateDevWorkspaceToCreate env vu it nsx).snd = 1 := by
    intro vu it nsx
    simp [generateDevWorkspaceToCreate, hdl, h]
  constructor
  · induction iters with
    | nil => rfl
    | cons x xs ih =>
      simp only [externalFetchesInRun, List.map_cons, List.sum_cons, List.length_cons] at ih ⊢
      rw [hsnd x.1 x.2.1 x.2.2, ih]
      omega
  · refine ⟨{ name := "dw-test-" ++ toString vuId ++ "-" ++ toString iteration,
              namespaceName := ns, labels := loadTestLabels,
              base := ManifestBase.external b }, ?_, rfl⟩
    simp [generateDevWorkspaceToCreate, hdl, h]

/-- C4 witness: concrete instantiation of `external_template_fetch_per_call`
for a one-iteration run. -/
theorem external_template_fetch_per_call_witness :
    externalFetchesInRun ⟨"https://example.com/dw.json", ⟨200, some "template"⟩⟩
        [(1, 0, "loadtest-devworkspaces")]
      = [((1 : Nat), (0 : Nat), "loadtest-devworkspaces")].length ∧
    ∃ m, (generateDevWorkspaceToCreate
        ⟨"https://example.com/dw.json", ⟨200, some "template"⟩⟩ 1 0
        "loadtest-devworkspaces").fst = Except.ok m ∧
      m.base = ManifestBase.external "template" :=
  external_template_fetch_per_call ⟨"https://example.com/dw.json", ⟨200, some "template"⟩⟩
    (by decide) [(1, 0, "loadtest-devworkspaces")] 1 0 "loadtest-devworkspaces" "template"
    rfl rfl
